import Mathlib

/-!
Verification development for the AI-Agent evaluation pipeline
(`app/models.py`, `app/services/evaluators.py`, `app/services/optimizer.py`,
`app/main.py`, `app/database.py`).

Shallow embedding conventions:
* Python floats are modelled as exact rationals (`ℚ`); `round(x, 2)` and the
  `"%.2f"` format are modelled by decimal round-half-even (`roundHalfEven`).
* `datetime` timestamps are modelled as rational seconds since an arbitrary
  epoch; `delta.total_seconds() * 1000` becomes `(ta - tu) * 1000`.
* Fallible Python code (raising `IndexError` / `TypeError` /
  pydantic `ValidationError`) is modelled with `Except String`.
* `Dict[str, Any]` tool arguments are modelled as association lists with
  text values; the only operation the code performs on an argument value is
  a regex match on a string.
* Python regexes are modelled by executable character-list functions that
  follow `re` semantics: `re.IGNORECASE` is modelled by lower-casing both
  sides (ASCII), `.` does not match a newline, and `$` in `re.match` accepts
  the end of the string or a position just before one final trailing newline.
  `\d` is modelled as an ASCII digit (the Unicode-digit extension of Python
  `\d` is not modelled).
-/

/-! ## Data model (`app/models.py`) -/

inductive Role
  | user
  | assistant
  | system
  | tool
deriving DecidableEq, Repr

inductive EvaluatorType
  | llm_judge
  | tool_check
  | coherence
deriving DecidableEq, Repr

inductive RoutingDecision
  | automated
  | human_review
deriving DecidableEq, Repr

structure ToolCall where
  id : String
  name : String
  arguments : List (String × String)
deriving DecidableEq, Repr

/-- `Message` from models.py.  `content : Optional[str] = ""` may be `None`
(modelled as `none`); `tool_calls : Optional[List[ToolCall]] = None`. -/
structure Message where
  role : Role
  content : Option String
  tool_calls : Option (List ToolCall)
  timestamp : ℚ
deriving DecidableEq, Repr

/-- `ConversationInput` (metadata and created_at are never read by the
pipeline and are omitted). -/
structure ConversationInput where
  id : String
  messages : List Message
deriving DecidableEq, Repr

/-- `EvaluationMetric`.  The free-form `metadata` dict is modelled by the two
keys the code ever writes: `issues` and `latency_ms` (empty dict =
`([], none)`). -/
structure EvaluationMetric where
  evaluator : EvaluatorType
  score : ℚ
  reasoning : String
  metadata_issues : List String
  metadata_latency_ms : Option ℚ
deriving DecidableEq, Repr

structure ImprovementSuggestion where
  target : String
  suggestion : String
  rationale : String
  expected_impact : String
deriving DecidableEq, Repr

/-- `EvaluationResult` (timestamp field omitted: defaulted, never read). -/
structure EvaluationResult where
  conversation_id : String
  metrics : List EvaluationMetric
  aggregated_score : ℚ
  issues : List String
  suggestions : List ImprovementSuggestion
  routing : RoutingDecision
deriving DecidableEq, Repr

/-- `HumanAnnotation` from models.py. -/
structure HumanAnnot where
  conversation_id : String
  annotator_id : String
  score : ℚ
  labels : List String
  confidence : ℚ
deriving DecidableEq, Repr

/-! ## Python semantics helpers -/

/-- Python truthiness of `msg.content` negated: `not msg.content` is true for
`None` and for the empty string. -/
def isFalsyContent : Option String → Bool
  | none => true
  | some s => s.isEmpty

/-- Python truthiness of `msg.tool_calls` negated: `None` and `[]` are falsy. -/
def isFalsyToolCalls : Option (List ToolCall) → Bool
  | none => true
  | some l => l.isEmpty

def msgToolList (m : Message) : List ToolCall :=
  match m.tool_calls with
  | some l => l
  | none => []

/-- Decimal round-half-even of a rational, Python `round` tie behaviour. -/
def roundHalfEven (q : ℚ) : ℤ :=
  let f : ℤ := ⌊q⌋
  let r : ℚ := q - f
  if r < 1/2 then f
  else if 1/2 < r then f + 1
  else if f % 2 = 0 then f else f + 1

/-- Python `round(x, 2)` on the exact-rational model of a float. -/
def pyRound2 (q : ℚ) : ℚ := (roundHalfEven (q * 100) : ℚ) / 100

/-- Python `f"{x:.2f}"` formatting of the exact-rational model of a float. -/
def qToDec2 (q : ℚ) : String :=
  let n : ℤ := roundHalfEven (q * 100)
  let a : ℕ := n.natAbs
  (if n < 0 then "-" else "")
    ++ toString (a / 100) ++ "."
    ++ (if a % 100 < 10 then "0" else "") ++ toString (a % 100)

/-- Python `f"{msg.role}"` on the `Role(str, Enum)` class prints the enum
member name. -/
def pyRoleStr : Role → String
  | Role.user => "Role.USER"
  | Role.assistant => "Role.ASSISTANT"
  | Role.system => "Role.SYSTEM"
  | Role.tool => "Role.TOOL"

/-- Python `repr` of a list of strings, e.g. `["date"]` prints as
`[\x27date\x27]`. -/
def pyReprStrList (l : List String) : String :=
  "[" ++ String.intercalate ", " (l.map (fun s => "\x27" ++ s ++ "\x27")) ++ "]"

/-! ## Mini regex engine (character lists) -/

/-- `w` is a prefix of `l`. -/
def startsWithL : List Char → List Char → Bool
  | _, [] => true
  | [], _ :: _ => false
  | a :: l, b :: w => a == b && startsWithL l w

/-- `w` occurs as a contiguous subsequence of `l` (Python `w in l` /
`re.search` of a literal). -/
def containsSeq : List Char → List Char → Bool
  | [], w => w.isEmpty
  | a :: l, w => startsWithL (a :: l) w || containsSeq l w

/-- Python substring test `w in s` (case sensitive). -/
def containsSub (s w : String) : Bool := containsSeq s.toList w.toList

/-- There is a split `l = gap ++ w ++ rest` where `gap` contains no newline:
the `.*w` part of a regex (`.` does not match a newline). -/
def noNLThen : List Char → List Char → Bool
  | [], w => w.isEmpty
  | c :: l, w => startsWithL (c :: l) w || (!(c == '\n') && noNLThen l w)

/-- Lower-cased character list of a string (model of `re.IGNORECASE`). -/
def lcs (s : String) : List Char := s.toList.map Char.toLower

/-- `re.search(r"(book|find|search).*flight", content, re.IGNORECASE)` on an
already lower-cased character list. -/
def flightPatGo : List Char → Bool
  | [] => false
  | c :: l =>
    (startsWithL (c :: l) ("book".toList) && noNLThen (l.drop 3) ("flight".toList))
      || (startsWithL (c :: l) ("find".toList) && noNLThen (l.drop 3) ("flight".toList))
      || (startsWithL (c :: l) ("search".toList) && noNLThen (l.drop 5) ("flight".toList))
      || flightPatGo l

/-- Exactly the literal shape `\d{4}-\d{2}-\d{2}` (ASCII digits). -/
def dateCore : List Char → Bool
  | [d1, d2, d3, d4, h1, m1, m2, h2, e1, e2] =>
      d1.isDigit && d2.isDigit && d3.isDigit && d4.isDigit && h1 == '-'
        && m1.isDigit && m2.isDigit && h2 == '-' && e1.isDigit && e2.isDigit
  | _ => false

/-- `re.match(r"^\d{4}-\d{2}-\d{2}$", s)`: anchored at the start, and `$`
matches at the end of the string or just before one final trailing newline. -/
def pyFullMatchDate (s : String) : Bool :=
  dateCore s.toList
    || (match s.toList.reverse with
        | '\n' :: rest => dateCore rest.reverse
        | _ => false)

/-! ## Heuristic evaluator (`evaluators.py`, `check_heuristics`) -/

/-- The backward scan of `check_heuristics` (evaluators.py:24-29) on the
already reversed message list.  The accumulator is `last_assistant_time`;
the loop `break`s at the first user message found after an assistant
timestamp is set, returning the `(last_user_time, last_assistant_time)`
pair. -/
def heuristicsPairGo : List Message → Option ℚ → Option (ℚ × ℚ)
  | [], _ => none
  | m :: rest, lastA =>
    match lastA with
    | some ta =>
      if m.role = Role.user then some (m.timestamp, ta)
      else heuristicsPairGo rest (some ta)
    | none =>
      heuristicsPairGo rest (if m.role = Role.assistant then some m.timestamp else none)

/-- `(last_user_time, last_assistant_time)` as found by the backward scan,
`none` when the loop ends with one of them unset. -/
def heuristicsPair (messages : List Message) : Option (ℚ × ℚ) :=
  heuristicsPairGo messages.reverse none

/-- Messages failing the empty-message check (evaluators.py:46-49):
`not msg.content and not msg.tool_calls`. -/
def emptyMsgs (messages : List Message) : List Message :=
  messages.filter (fun m => isFalsyContent m.content && isFalsyToolCalls m.tool_calls)

/-- `check_heuristics` (evaluators.py:13-56).  Total: no exception path. -/
def check_heuristics (messages : List Message) : EvaluationMetric :=
  let p := heuristicsPair messages
  let real_latency_ms : ℚ :=
    match p with
    | some (tu, ta) => (ta - tu) * 1000
    | none => 0
  let latIssues : List String :=
    match p with
    | some (tu, ta) =>
      if (ta - tu) * 1000 > 1000 then
        ["Latency violation: Response took " ++ qToDec2 ((ta - tu) * 1000)
          ++ "ms (Threshold: 1000ms)"]
      else []
    | none => ["Could not calculate latency (missing timestamp pair)."]
  let s1 : ℚ :=
    match p with
    | some (tu, ta) => if (ta - tu) * 1000 > 1000 then 1 - 0.15 else 1
    | none => 1
  let emp := emptyMsgs messages
  let empIssues := emp.map (fun m => "Empty message detected for role " ++ pyRoleStr m.role)
  let s2 : ℚ := s1 - 0.2 * emp.length
  let issues := latIssues ++ empIssues
  { evaluator := EvaluatorType.coherence
    score := max 0 s2
    reasoning := "Heuristics Check: " ++ toString issues.length
      ++ " issues found. Actual Latency: " ++ qToDec2 real_latency_ms ++ "ms."
    metadata_issues := issues
    metadata_latency_ms := some real_latency_ms }

/-! ## Tool-usage evaluator (`evaluators.py`, `evaluate_tool_usage`) -/

/-- The inner pattern loop (evaluators.py:79-82): first matching pattern in
dict insertion order (flight, refund, weather) wins for one message. -/
def intentOf (c : String) : Option String :=
  let l := lcs c
  if flightPatGo l then some "flight_search"
  else if containsSeq l ("refund".toList) then some "process_refund"
  else if containsSeq l ("weather".toList) then some "get_weather"
  else none

/-- The intent-detection loop (evaluators.py:76-82).  The outer loop over
messages does not break, so a later user message that matches any pattern
overwrites the accumulator.  A user message with `content = None` raises
`TypeError` inside `re.search`. -/
def detect_user_intent : List Message → Option String → Except String (Option String)
  | [], acc => Except.ok acc
  | m :: rest, acc =>
    if m.role = Role.user then
      match m.content with
      | none => Except.error "TypeError: expected string or bytes-like object"
      | some c =>
        match intentOf c with
        | some t => detect_user_intent rest (some t)
        | none => detect_user_intent rest acc
    else detect_user_intent rest acc

/-- `tool_definitions.get(tool.name, [])` (evaluators.py:69-73, 98). -/
def required_args : String → List String
  | "flight_search" => ["destination", "date"]
  | "process_refund" => ["order_id"]
  | "get_weather" => ["city"]
  | _ => []

def argKeys (tc : ToolCall) : List String := tc.arguments.map Prod.fst

/-- First binding of a key in the argument dict. -/
def argLookup (tc : ToolCall) (k : String) : Option String :=
  (tc.arguments.find? (fun kv => kv.1 == k)).map Prod.snd

/-- `[arg for arg in required_args if arg not in tool.arguments]`. -/
def missingArgs (tc : ToolCall) : List String :=
  (required_args tc.name).filter (fun a => !(argKeys tc).contains a)

structure ToolScanState where
  tool_called : Bool
  valid_args : Bool
  reasoning : List String
  score : ℚ
deriving DecidableEq, Repr

def initScan : ToolScanState :=
  { tool_called := false, valid_args := true, reasoning := [], score := 1 }

/-- Body of the tool-call loop (evaluators.py:93-112) for one tool call. -/
def processTool (intent : String) (st : ToolScanState) (tc : ToolCall) : ToolScanState :=
  if tc.name = intent then
    let st1 := { st with tool_called := true }
    let missing := missingArgs tc
    let st2 :=
      if !missing.isEmpty then
        { st1 with
            valid_args := false
            reasoning := st1.reasoning
              ++ ["Tool \x27" ++ tc.name ++ "\x27 missing args: " ++ pyReprStrList missing]
            score := 0.5 }
      else st1
    if tc.name = "flight_search" then
      match argLookup tc "date" with
      | some dv =>
        if !pyFullMatchDate dv then
          { st2 with
              valid_args := false
              reasoning := st2.reasoning
                ++ ["Invalid Date Format in \x27flight_search\x27: \x27" ++ dv
                    ++ "\x27. Expected YYYY-MM-DD."]
              score := 0.5 }
        else st2
      | none => st2
    else st2
  else st

/-- The message loop (evaluators.py:91-112): only assistant messages with a
truthy `tool_calls` list are scanned. -/
def scanTools (intent : String) : List Message → ToolScanState → ToolScanState
  | [], st => st
  | m :: rest, st =>
    scanTools intent rest
      (if m.role == Role.assistant && !isFalsyToolCalls m.tool_calls then
        (msgToolList m).foldl (processTool intent) st
      else st)

/-- `evaluate_tool_usage` (evaluators.py:58-124). -/
def evaluate_tool_usage (messages : List Message) : Except String EvaluationMetric :=
  match detect_user_intent messages none with
  | Except.error e => Except.error e
  | Except.ok none =>
    Except.ok
      { evaluator := EvaluatorType.tool_check, score := 1
        reasoning := "No tool intent detected."
        metadata_issues := [], metadata_latency_ms := none }
  | Except.ok (some intent) =>
    let st := scanTools intent messages initScan
    let st2 :=
      if !st.tool_called then
        { st with
            score := 0
            reasoning := st.reasoning
              ++ ["User asked for \x27" ++ intent
                  ++ "\x27 but no tool was called (Hallucination)."] }
      else if st.valid_args then
        { st with
            reasoning := st.reasoning ++ ["Tool \x27" ++ intent ++ "\x27 called correctly."] }
      else st
    Except.ok
      { evaluator := EvaluatorType.tool_check, score := st2.score
        reasoning := String.intercalate "; " st2.reasoning
        metadata_issues := [], metadata_latency_ms := none }

/-! ## Coherence evaluator (`evaluators.py`, `evaluate_coherence`) -/

/-- `evaluate_coherence` (evaluators.py:126-153).  `messages[-1]` raises
`IndexError` on an empty list. -/
def evaluate_coherence (messages : List Message) : Except String EvaluationMetric :=
  match messages.getLast? with
  | none => Except.error "IndexError: list index out of range"
  | some last =>
    let endIssues := if last.role = Role.tool then ["Ended abruptly on tool output."] else []
    let s1 : ℚ := if last.role = Role.tool then 1 - 0.5 else 1
    let assistant_msgs := messages.filterMap (fun m =>
      if m.role = Role.assistant then
        match m.content with
        | some c => if c.isEmpty then none else some c
        | none => none
      else none)
    let rep := assistant_msgs.length ≠ assistant_msgs.dedup.length
    let repIssues := if rep then ["Detected repetitive content (Loop)."] else []
    let s2 : ℚ := if rep then s1 - 0.3 else s1
    let emptyUsers := messages.filter (fun m => m.role == Role.user && isFalsyContent m.content)
    let userIssues := emptyUsers.map (fun _ => "Empty user message found.")
    let s3 : ℚ := s2 - 0.2 * emptyUsers.length
    let issues := endIssues ++ repIssues ++ userIssues
    Except.ok
      { evaluator := EvaluatorType.coherence
        score := max 0 s3
        reasoning := if issues.isEmpty then "Flow consistent."
          else String.intercalate "; " issues
        metadata_issues := [], metadata_latency_ms := none }

/-! ## Controller (`evaluators.py`, `run_all_evaluators`) -/

/-- `run_all_evaluators` (evaluators.py:203-218) with the hardcoded
`USE_OPENAI = False` branch: heuristics first, then the deterministic tool
and coherence checks.  An exception in an evaluator propagates. -/
def run_all_evaluators (messages : List Message) : Except String (List EvaluationMetric) :=
  match evaluate_tool_usage messages with
  | Except.error e => Except.error e
  | Except.ok m2 =>
    match evaluate_coherence messages with
    | Except.error e => Except.error e
    | Except.ok m3 => Except.ok [check_heuristics messages, m2, m3]

/-! ## Suggestion engine (`optimizer.py`) -/

/-- The fixed prompts suggestion (optimizer.py:16-21). -/
def promptSug : ImprovementSuggestion :=
  { target := "prompts"
    suggestion := "Add System Prompt Rule: \x27If user intent implies X, you MUST call tool Y.\x27"
    rationale := "Model hallucinated a text response instead of taking action."
    expected_impact := "Aligns intent-to-action ratio." }

/-- The tools suggestion (optimizer.py:23-28); its rationale embeds the
metric reasoning. -/
def toolsSug (reasoning : String) : ImprovementSuggestion :=
  { target := "tools"
    suggestion := "Update tool schema definition to make missing arguments mandatory."
    rationale := "Model failed to output required args. Error: " ++ reasoning
    expected_impact := "Reduces SchemaValidationErrors." }

/-- `generate_suggestions_logic` (optimizer.py:10-30): a for loop appending
to a list.  Note the `elif` between the two substring checks and the absence
of any rule for COHERENCE metrics. -/
def generate_suggestions_logic (metrics : List EvaluationMetric) : List ImprovementSuggestion :=
  metrics.foldl
    (fun acc metric =>
      if metric.evaluator = EvaluatorType.tool_check ∧ metric.score < 0.6 then
        if containsSub metric.reasoning "no tool was called" then acc ++ [promptSug]
        else if containsSub metric.reasoning "missing required args" then
          acc ++ [toolsSug metric.reasoning]
        else acc
      else acc)
    []

/-- `generate_suggestions` (optimizer.py:60-67) with `USE_OPENAI = False`. -/
def generate_suggestions (metrics : List EvaluationMetric) : List ImprovementSuggestion :=
  generate_suggestions_logic metrics

/-! ## Pipeline (`main.py`) -/

/-- `avg_score` computation of `run_pipeline` (main.py:30-33). -/
def avg_score_of (metrics : List EvaluationMetric) : ℚ :=
  if !metrics.isEmpty then (metrics.map EvaluationMetric.score).sum / metrics.length
  else 0.0

/-- `round(avg_score, 2)` as passed to the result (main.py:41). -/
def aggregate_score (metrics : List EvaluationMetric) : ℚ :=
  pyRound2 (avg_score_of metrics)

/-- Pydantic construction of `EvaluationResult` (models.py:54-61): `routing`
has no default, so constructing the model without it raises a
`ValidationError`. -/
def EvaluationResult.construct (cid : String) (metrics : List EvaluationMetric)
    (agg : ℚ) (issues : List String) (suggs : List ImprovementSuggestion)
    (routing : Option RoutingDecision) : Except String EvaluationResult :=
  match routing with
  | some r =>
    Except.ok
      { conversation_id := cid, metrics := metrics, aggregated_score := agg
        issues := issues, suggestions := suggs, routing := r }
  | none => Except.error "ValidationError: routing field required"

/-- `run_pipeline` (main.py:19-44).  The `EvaluationResult(...)` call at
main.py:38-44 passes no `routing` argument, hence the final `none`. -/
def run_pipeline (conv : ConversationInput) : Except String EvaluationResult :=
  match run_all_evaluators conv.messages with
  | Except.error e => Except.error e
  | Except.ok metrics =>
    EvaluationResult.construct conv.id metrics (aggregate_score metrics)
      ((metrics.filter (fun m => m.score < 1.0)).map (fun m => m.reasoning))
      (generate_suggestions metrics)
      none

/-! ## Annotation store (`database.py`) -/

/-- One row of the `annotations` table: PRIMARY KEY (conversation_id,
annotator_id); `labels` holds the stored JSON text. -/
structure AnnotRow where
  conversation_id : String
  annotator_id : String
  score : ℚ
  labels : String
  confidence : ℚ
deriving DecidableEq, Repr

/-- `save_annotation` (database.py:48-55): `INSERT OR REPLACE` keyed on the
primary key; `labels` is hardcoded to the JSON text `[]`. -/
def saveAnnot (db : List AnnotRow) (conv_id annotator : String) (score confidence : ℚ) :
    List AnnotRow :=
  (db.filter (fun r => !(r.conversation_id == conv_id && r.annotator_id == annotator)))
    ++ [{ conversation_id := conv_id, annotator_id := annotator, score := score
          labels := "[]", confidence := confidence }]

/-- `submit_feedback` (main.py:61-76): the call at main.py:71 passes only
`(conversation_id, annotator_id, score)`, so the `confidence=1.0` default of
`save_annotation` applies and the submitted labels and confidence are
dropped. -/
def submit_feedback (db : List AnnotRow) (a : HumanAnnot) : List AnnotRow :=
  saveAnnot db a.conversation_id a.annotator_id a.score 1.0

/-- The rows `SELECT conversation_id, score FROM annotations` returns. -/
def dbRows (db : List AnnotRow) : List (String × ℚ) :=
  db.map (fun r => (r.conversation_id, r.score))

/-- Distinct conversation ids, as grouped by `df.groupby("conversation_id")`. -/
def convIds (rows : List (String × ℚ)) : List String :=
  (rows.map Prod.fst).dedup

/-- Scores of one conversation group. -/
def scoresFor (rows : List (String × ℚ)) (cid : String) : List ℚ :=
  (rows.filter (fun r => r.1 == cid)).map Prod.snd

/-- pandas `Series.std()` (ddof = 1): the sample standard deviation.  Only
evaluated on groups of size ≥ 2; groups of size 1 yield NaN in pandas and
are dropped before this is applied (see `stdList`). -/
noncomputable def sampleStd (xs : List ℚ) : ℝ :=
  let n : ℝ := xs.length
  let mean : ℝ := ((xs.map (fun x => (x : ℝ))).sum) / n
  Real.sqrt (((xs.map (fun x => ((x : ℝ) - mean) ^ 2)).sum) / (n - 1))

/-- `df.groupby("conversation_id")["score"].std()` restricted to the non-NaN
entries: pandas gives NaN for singleton groups, and `Series.mean()` skips
NaN values, so only groups of size ≥ 2 contribute. -/
noncomputable def stdList (rows : List (String × ℚ)) : List ℝ :=
  (convIds rows).filterMap (fun cid =>
    let xs := scoresFor rows cid
    if 2 ≤ xs.length then some (sampleStd xs) else none)

section RealRounding

open Classical

/-- Decimal round-half-even on a real number (Python `round` tie behaviour). -/
noncomputable def roundHalfEvenR (x : ℝ) : ℤ :=
  if Int.fract x < 1/2 then ⌊x⌋
  else if 1/2 < Int.fract x then ⌊x⌋ + 1
  else if ⌊x⌋ % 2 = 0 then ⌊x⌋ else ⌊x⌋ + 1

/-- Python `round(x, 2)` on a real number. -/
noncomputable def pyRound2R (x : ℝ) : ℝ := (roundHalfEvenR (x * 100) : ℝ) / 100

end RealRounding

/-- `get_agreement_score` (database.py:57-76).  `df.empty or len(df) < 2` is
equivalent to `len(df) < 2`.  When every group is a singleton the mean of
the per-group standard deviations is NaN and the code falls back to an
agreement index of 1.0 (`pd.notna(disagreement)` is false); otherwise the
index is `1 / (1 + disagreement)`.  Both are rounded to 2 decimals. -/
noncomputable def get_agreement_score (db : List AnnotRow) : ℝ × String :=
  let rows := dbRows db
  if rows.length < 2 then (0.0, "Insufficient Data")
  else
    let stds := stdList rows
    if stds.isEmpty then (pyRound2R 1.0, "Variance-Based Agreement Index")
    else
      (pyRound2R (1.0 / (1.0 + stds.sum / stds.length)), "Variance-Based Agreement Index")

/-! ## Spec-side definitions (written from the spec wording, for comparison
with the embedded code) -/

/-- Spec side (claim C3): arithmetic mean of the metric scores, `0` for the
empty list. -/
def specMean (metrics : List EvaluationMetric) : ℚ :=
  if metrics = [] then 0
  else (metrics.map EvaluationMetric.score).sum / metrics.length

/-- Spec side (claim C6, amended): the per-metric suggestion rule the code
implements — `prompts` for a low TOOL_CHECK metric whose reasoning contains
`no tool was called`, otherwise `tools` for one whose reasoning contains
`missing required args`, and nothing for any other metric (in particular
nothing for COHERENCE metrics). -/
def ruleC6 (metric : EvaluationMetric) : List ImprovementSuggestion :=
  if metric.evaluator = EvaluatorType.tool_check ∧ metric.score < 0.6 then
    if containsSub metric.reasoning "no tool was called" then [promptSug]
    else if containsSub metric.reasoning "missing required args" then
      [toolsSug metric.reasoning]
    else []
  else []

/-! ## Spec-side and example definitions used by the claim theorems -/

/-- Spec side (claim C8, amended): the most recent assistant message paired
with the nearest user message preceding it, where the backward search skips
messages of every other role — including further assistant messages. -/
def specPairAux (l : List Message) : Option (ℚ × ℚ) :=
  match l.dropWhile (fun m => !(m.role == Role.assistant)) with
  | [] => none
  | a :: before =>
    match before.find? (fun m => m.role == Role.user) with
    | none => none
    | some u => some (u.timestamp, a.timestamp)

def specPair (messages : List Message) : Option (ℚ × ℚ) :=
  specPairAux messages.reverse

/-- Claim side (claim C8, as frozen): the nearest preceding user message
encountered going backward *before any other assistant message*; if another
assistant message is reached first there is no pair. -/
def claimPair (messages : List Message) : Option (ℚ × ℚ) :=
  match messages.reverse.dropWhile (fun m => !(m.role == Role.assistant)) with
  | [] => none
  | a :: before =>
    match before.find? (fun m => m.role == Role.user || m.role == Role.assistant) with
    | some u => if u.role == Role.user then some (u.timestamp, a.timestamp) else none
    | none => none

def exC8 : List Message :=
  [⟨Role.user, some "hi", none, 0⟩, ⟨Role.assistant, some "a", none, 1⟩,
   ⟨Role.assistant, some "b", none, 6⟩]

/-- The intent one message contributes: for a user message with text
content, its first matching pattern in declaration order. -/
def msgIntent (m : Message) : Option String :=
  if m.role = Role.user then
    match m.content with
    | some c => intentOf c
    | none => none
  else none

def lastIntentRev : List Message → Option String
  | [] => none
  | m :: rest =>
    match msgIntent m with
    | some t => some t
    | none => lastIntentRev rest

/-- Spec side (claim C5, amended): the intent of the *latest* user message
matching any pattern (the code's outer loop keeps overwriting). -/
def lastIntent (messages : List Message) : Option String :=
  lastIntentRev messages.reverse

/-- Claim side (claim C5, as frozen): the intent of the *first* user message
matching any pattern, scanning the conversation in order. -/
def firstIntent : List Message → Option String
  | [] => none
  | m :: rest =>
    match msgIntent m with
    | some t => some t
    | none => firstIntent rest

def exC5 : List Message :=
  [⟨Role.user, some "I want a refund", none, 0⟩,
   ⟨Role.user, some "what is the weather like", none, 1⟩]

def exC5w : List Message := [⟨Role.user, some "hello there", none, 0⟩]

/-- Spec side: some assistant message carries a tool call named `t`
(evaluators.py:91-95). -/
def hasMatchB (t : String) (messages : List Message) : Bool :=
  messages.any (fun m =>
    m.role == Role.assistant && (msgToolList m).any (fun tc => tc.name == t))

/-- Spec side: the call is faulted by the code — a required argument key is
missing, or it is `flight_search` with a date argument rejected by the
code's date regex. -/
def callBad (tc : ToolCall) : Bool :=
  !(missingArgs tc).isEmpty
    || (tc.name == "flight_search"
        && (match argLookup tc "date" with
            | some dv => !pyFullMatchDate dv
            | none => false))

/-- Spec side: some assistant message carries a faulted tool call named
`t`. -/
def hasBadB (t : String) (messages : List Message) : Bool :=
  messages.any (fun m =>
    m.role == Role.assistant && (msgToolList m).any (fun tc => tc.name == t && callBad tc))

def exC4 : List Message :=
  [⟨Role.user, some "please find me a flight to paris", none, 0⟩,
   ⟨Role.assistant, some "booked", some [⟨"t1", "flight_search",
      [("destination", "Paris"), ("date", "2024-05-01\n")]⟩], 1⟩]

def exC4w : List Message :=
  [⟨Role.user, some "what is the weather in Paris?", none, 0⟩,
   ⟨Role.assistant, some "checking", some [⟨"t1", "get_weather", [("city", "Paris")]⟩], 1⟩]

def exC10w : List Message :=
  [⟨Role.user, some "hello", none, 0⟩, ⟨Role.assistant, some "hi!", none, 1⟩]

def exB1 : HumanAnnot :=
  { conversation_id := "c9", annotator_id := "ax", score := 1/2
    labels := ["ok"], confidence := 9/10 }

def exB2 : HumanAnnot :=
  { conversation_id := "c9", annotator_id := "ax", score := 3/4
    labels := ["bad"], confidence := 1/2 }

def dbC7 : List AnnotRow :=
  [{ conversation_id := "c1", annotator_id := "a1", score := 1/2, labels := "[]", confidence := 1 },
   { conversation_id := "c2", annotator_id := "a2", score := 7/10, labels := "[]", confidence := 1 }]

def dbC7w : List AnnotRow :=
  [{ conversation_id := "c1", annotator_id := "a1", score := 4/5, labels := "[]", confidence := 1 },
   { conversation_id := "c1", annotator_id := "a2", score := 4/5, labels := "[]", confidence := 1 }]

/-! ## Claim C3 -/

lemma foldlSug (metrics : List EvaluationMetric) (acc : List ImprovementSuggestion) :
    metrics.foldl
      (fun acc metric =>
        if metric.evaluator = EvaluatorType.tool_check ∧ metric.score < 0.6 then
          if containsSub metric.reasoning "no tool was called" then acc ++ [promptSug]
          else if containsSub metric.reasoning "missing required args" then
            acc ++ [toolsSug metric.reasoning]
          else acc
        else acc)
      acc
    = acc ++ (metrics.map ruleC6).flatten := by
  induction metrics generalizing acc with
  | nil => simp
  | cons m rest ih =>
    simp only [List.foldl_cons, List.map_cons, List.flatten, ih, ruleC6]
    by_cases h1 : m.evaluator = EvaluatorType.tool_check ∧ m.score < 0.6
    · simp only [h1, if_true]
      by_cases h2 : containsSub m.reasoning "no tool was called" = true
      · simp [h2, List.append_assoc]
      · by_cases h3 : containsSub m.reasoning "missing required args" = true
        · simp [h2, h3, List.append_assoc]
        · simp [h2, h3]
    · simp [h1]

/-- Claim C3: for every metric list the pipeline's aggregated score is the
arithmetic mean of the metric scores rounded to 2 decimal places, and it is
`0` for the empty metric list (the `if metrics:` guard, not a
division-by-zero fault). -/
theorem c3_aggregate_is_rounded_mean (metrics : List EvaluationMetric) :
    aggregate_score metrics = pyRound2 (specMean metrics) ∧
    (metrics = [] → aggregate_score metrics = 0) := by
  constructor
  · unfold aggregate_score avg_score_of specMean
    cases metrics with
    | nil => norm_num
    | cons a l => simp
  · intro h
    subst h
    norm_num [aggregate_score, avg_score_of, pyRound2, roundHalfEven]

/-! ## Claim C6 -/

/-- Claim C6 (amended): the suggestion engine is the metric-order
concatenation of the per-metric rule `ruleC6`: `prompts` for a TOOL_CHECK
metric with score < 0.6 whose reasoning contains `no tool was called`,
otherwise `tools` for one whose reasoning contains `missing required args`,
and no suggestion for any other metric — in particular no rule for
COHERENCE metrics exists. -/
theorem c6_suggestions_rule (metrics : List EvaluationMetric) :
    generate_suggestions metrics = (metrics.map ruleC6).flatten := by
  unfold generate_suggestions generate_suggestions_logic
  simpa using foldlSug metrics []

/-- Claim C6 counterexample: a COHERENCE metric with score 0 (< 0.5)
produces no suggestion, while the claim requires one step-by-step-reasoning
suggestion for it. -/
theorem c6_counterexample :
    generate_suggestions
        [{ evaluator := EvaluatorType.coherence, score := 0
           reasoning := "Ended abruptly on tool output."
           metadata_issues := [], metadata_latency_ms := none }]
      = []
    ∧ (0 : ℚ) < 0.5 := by
  constructor
  · norm_num +decide [generate_suggestions, generate_suggestions_logic]
  · norm_num

/-! ## Claim C2 -/

/-- Claim C2: a conversation with zero messages is not rejected before
pipeline execution — it reaches `evaluate_coherence`, whose `messages[-1]`
raises `IndexError`, so the whole pipeline run fails instead of returning a
rejection. -/
theorem c2_empty_conversation_crashes :
    run_pipeline { id := "empty", messages := [] }
      = Except.error "IndexError: list index out of range" := rfl

/-! ## Claim C8 -/

lemma heuristicsPairGo_some (l : List Message) (ta : ℚ) :
    heuristicsPairGo l (some ta)
      = match l.find? (fun m => m.role == Role.user) with
        | some u => some (u.timestamp, ta)
        | none => none := by
  induction l with
  | nil => rfl
  | cons m rest ih =>
    by_cases h : m.role = Role.user
    · simp [heuristicsPairGo, List.find?_cons, h]
    · simp [heuristicsPairGo, List.find?_cons, h, ih]

lemma heuristicsPairGo_none (l : List Message) :
    heuristicsPairGo l none = specPairAux l := by
  induction l with
  | nil => rfl
  | cons m rest ih =>
    by_cases h : m.role = Role.assistant
    · have e1 : heuristicsPairGo (m :: rest) none = heuristicsPairGo rest (some m.timestamp) := by
        simp [heuristicsPairGo, h]
      have e2 : (m :: rest).dropWhile (fun x => !(x.role == Role.assistant)) = m :: rest := by
        simp [List.dropWhile_cons, h]
      rw [e1, heuristicsPairGo_some]
      cases hf : List.find? (fun x => x.role == Role.user) rest with
      | none => simp [specPairAux, e2, hf]
      | some u => simp [specPairAux, e2, hf]
    · simp [heuristicsPairGo, specPairAux, List.dropWhile_cons, h] at ih ⊢
      exact ih

/-- Claim C8 (amended): the heuristic evaluator pairs the most recent
assistant message with the nearest user message preceding it in the backward
scan, *skipping over any intervening assistant messages* (rather than
stopping at them); given a pair it deducts 0.15 with a latency-violation
issue exactly when the elapsed time exceeds 1000 ms, and with no pair it
records the informational issue without any latency deduction. -/
theorem c8_latency_pairing (messages : List Message) :
    heuristicsPair messages = specPair messages ∧
    (∀ tu ta, heuristicsPair messages = some (tu, ta) →
      (check_heuristics messages).score
          = max 0 ((if (ta - tu) * 1000 > 1000 then (1 : ℚ) - 0.15 else 1)
              - 0.2 * ((emptyMsgs messages).length : ℚ)) ∧
      (check_heuristics messages).metadata_issues
          = (if (ta - tu) * 1000 > 1000 then
              ["Latency violation: Response took " ++ qToDec2 ((ta - tu) * 1000)
                ++ "ms (Threshold: 1000ms)"]
            else [])
            ++ (emptyMsgs messages).map
                (fun m => "Empty message detected for role " ++ pyRoleStr m.role)) ∧
    (heuristicsPair messages = none →
      (check_heuristics messages).score
          = max 0 ((1 : ℚ) - 0.2 * ((emptyMsgs messages).length : ℚ)) ∧
      (check_heuristics messages).metadata_issues
          = "Could not calculate latency (missing timestamp pair)."
            :: (emptyMsgs messages).map
                (fun m => "Empty message detected for role " ++ pyRoleStr m.role)) := by
  refine ⟨heuristicsPairGo_none messages.reverse, ?_, ?_⟩
  · intro tu ta hp
    by_cases hlat : (ta - tu) * 1000 > 1000
    · exact ⟨by simp [check_heuristics, hp, hlat], by simp [check_heuristics, hp, hlat]⟩
    · exact ⟨by simp [check_heuristics, hp, hlat], by simp [check_heuristics, hp, hlat]⟩
  · intro hp
    exact ⟨by simp [check_heuristics, hp], by simp [check_heuristics, hp]⟩

/-- Claim C8 counterexample: in `[user@0s, assistant@1s, assistant@6s]` the
backward scan meets another assistant message before any user message, so
under the claim's pairing rule there is no valid pair and no latency
deduction — but the code pairs the user at 0 s with the assistant at 6 s,
records a 6000 ms latency violation and deducts 0.15 (score 0.85). -/
theorem c8_counterexample :
    claimPair exC8 = none ∧
    (check_heuristics exC8).score = 0.85 ∧
    (check_heuristics exC8).metadata_issues
      = ["Latency violation: Response took 6000.00ms (Threshold: 1000ms)"] := by
  refine ⟨rfl, ?_, ?_⟩
  · norm_num +decide [check_heuristics, heuristicsPair, heuristicsPairGo, emptyMsgs, exC8,
      isFalsyContent, isFalsyToolCalls]
  · norm_num +decide [check_heuristics, heuristicsPair, heuristicsPairGo, emptyMsgs, exC8,
      isFalsyContent, isFalsyToolCalls, qToDec2, roundHalfEven]

/-! ## Claim C5 -/

lemma lastIntentRev_append (l : List Message) (m : Message) :
    lastIntentRev (l ++ [m])
      = match lastIntentRev l with
        | some t => some t
        | none => msgIntent m := by
  induction l with
  | nil => cases h : msgIntent m <;> simp [lastIntentRev, h]
  | cons a l ih =>
    cases h : msgIntent a <;> simp [lastIntentRev, h, ih]

lemma detect_eq (messages : List Message) (acc : Option String)
    (h2 : ∀ m ∈ messages, m.role = Role.user → m.content ≠ none) :
    detect_user_intent messages acc
      = Except.ok (match lastIntent messages with
                   | some t => some t
                   | none => acc) := by
  induction messages generalizing acc with
  | nil => rfl
  | cons m rest ih =>
    have h2m := h2 m (by simp)
    have h2r : ∀ x ∈ rest, x.role = Role.user → x.content ≠ none :=
      fun x hx => h2 x (by simp [hx])
    have hL : lastIntent (m :: rest)
        = match lastIntent rest with
          | some t => some t
          | none => msgIntent m := by
      unfold lastIntent
      rw [List.reverse_cons, lastIntentRev_append]
    by_cases hr : m.role = Role.user
    · cases hc : m.content with
      | none => exact absurd hc (h2m hr)
      | some c =>
        have hm : msgIntent m = intentOf c := by simp [msgIntent, hr, hc]
        cases hi : intentOf c with
        | some t =>
          have e1 : detect_user_intent (m :: rest) acc = detect_user_intent rest (some t) := by
            simp [detect_user_intent, hr, hc, hi]
          rw [e1, ih (some t) h2r, hL, hm, hi]
          cases lastIntent rest <;> rfl
        | none =>
          have e1 : detect_user_intent (m :: rest) acc = detect_user_intent rest acc := by
            simp [detect_user_intent, hr, hc, hi]
          rw [e1, ih acc h2r, hL, hm, hi]
          cases lastIntent rest <;> rfl
    · have hm : msgIntent m = none := by simp [msgIntent, hr]
      have e1 : detect_user_intent (m :: rest) acc = detect_user_intent rest acc := by
        simp [detect_user_intent, hr]
      rw [e1, ih acc h2r, hL, hm]
      cases lastIntent rest <;> rfl

/-- Claim C5 (amended): the tool-usage evaluator's detected intent is the
first matching pattern (in the fixed declaration order flight, refund,
weather) of the *last* user message that matches any pattern — a later
match overwrites an earlier one, the opposite of first-match-wins over
messages; when no user message matches, the evaluator returns score 1.0
with reasoning `No tool intent detected.` and performs no further checks. -/
theorem c5_intent_priority (messages : List Message)
    (h2 : ∀ m ∈ messages, m.role = Role.user → m.content ≠ none) :
    detect_user_intent messages none = Except.ok (lastIntent messages) ∧
    (lastIntent messages = none →
      evaluate_tool_usage messages
        = Except.ok ⟨EvaluatorType.tool_check, 1, "No tool intent detected.", [], none⟩) := by
  have hd := detect_eq messages none h2
  constructor
  · rw [hd]
    cases lastIntent messages <;> rfl
  · intro hL
    rw [hL] at hd
    simp only [evaluate_tool_usage, hd]

/-- Claim C5 counterexample: with user messages `I want a refund` then
`what is the weather like`, the first matching intent scanning in order is
`process_refund`, but the code detects `get_weather` (the later match
overwrites), visible in the hallucination reasoning of the returned
metric. -/
theorem c5_counterexample :
    firstIntent exC5 = some "process_refund" ∧
    detect_user_intent exC5 none = Except.ok (some "get_weather") ∧
    evaluate_tool_usage exC5
      = Except.ok ⟨EvaluatorType.tool_check, 0,
          "User asked for \x27get_weather\x27 but no tool was called (Hallucination).",
          [], none⟩ := ⟨rfl, rfl, rfl⟩

/-- Witness for `c5_intent_priority` at a concrete conversation with no
matching intent. -/
theorem c5_intent_priority_witness :
    detect_user_intent exC5w none = Except.ok (lastIntent exC5w) ∧
    evaluate_tool_usage exC5w
      = Except.ok ⟨EvaluatorType.tool_check, 1, "No tool intent detected.", [], none⟩ := by
  have h := c5_intent_priority exC5w (by decide)
  exact ⟨h.1, h.2 rfl⟩

/-! ## Claim C4 -/

lemma processTool_spec (t : String) (st : ToolScanState) (tc : ToolCall) :
    (processTool t st tc).tool_called = (st.tool_called || tc.name == t) ∧
    (processTool t st tc).score = (if tc.name == t && callBad tc then 0.5 else st.score) ∧
    (processTool t st tc).valid_args = (st.valid_args && !(tc.name == t && callBad tc)) := by
  by_cases h : tc.name = t
  · subst h
    by_cases hm : (missingArgs tc).isEmpty
    · by_cases hf : tc.name = "flight_search"
      · cases hd : argLookup tc "date" with
        | none => simp [processTool, callBad, hm, hf, hd]
        | some dv =>
          by_cases hp : pyFullMatchDate dv
          · simp [processTool, callBad, hm, hf, hd, hp]
          · simp [processTool, callBad, hm, hf, hd, hp]
      · simp [processTool, callBad, hm, hf]
    · by_cases hf : tc.name = "flight_search"
      · cases hd : argLookup tc "date" with
        | none => simp [processTool, callBad, hm, hf, hd]
        | some dv =>
          by_cases hp : pyFullMatchDate dv
          · simp [processTool, callBad, hm, hf, hd, hp]
          · simp [processTool, callBad, hm, hf, hd, hp]
      · simp [processTool, callBad, hm, hf]
  · simp [processTool, callBad, h]

lemma foldl_tool_called (t : String) (l : List ToolCall) (st : ToolScanState) :
    (l.foldl (processTool t) st).tool_called
      = (st.tool_called || l.any (fun tc => tc.name == t)) := by
  induction l generalizing st with
  | nil => simp
  | cons tc l ih =>
    rw [List.foldl_cons, ih, (processTool_spec t st tc).1]
    simp [Bool.or_assoc]

lemma foldl_score (t : String) (l : List ToolCall) (st : ToolScanState) :
    (l.foldl (processTool t) st).score
      = (if l.any (fun tc => tc.name == t && callBad tc) then (0.5 : ℚ) else st.score) := by
  induction l generalizing st with
  | nil => simp
  | cons tc l ih =>
    rw [List.foldl_cons, ih, (processTool_spec t st tc).2.1]
    by_cases hb : (tc.name == t && callBad tc) = true
    · simp only [List.any_cons, hb, Bool.true_or, if_true]
      split <;> rfl
    · simp only [List.any_cons, hb, Bool.false_or, if_neg]
      simp [hb]

lemma foldl_valid (t : String) (l : List ToolCall) (st : ToolScanState) :
    (l.foldl (processTool t) st).valid_args
      = (st.valid_args && !l.any (fun tc => tc.name == t && callBad tc)) := by
  induction l generalizing st with
  | nil => simp
  | cons tc l ih =>
    rw [List.foldl_cons, ih, (processTool_spec t st tc).2.2]
    simp [Bool.and_assoc]

lemma falsy_any (m : Message) (p : ToolCall → Bool)
    (h : isFalsyToolCalls m.tool_calls = true) : (msgToolList m).any p = false := by
  cases hm : m.tool_calls with
  | none => simp [msgToolList, hm]
  | some l =>
    rw [hm] at h
    simp only [isFalsyToolCalls, List.isEmpty_iff] at h
    subst h
    simp [msgToolList, hm]

lemma head_contrib_false (m : Message) (p : ToolCall → Bool)
    (hs : (m.role == Role.assistant && !isFalsyToolCalls m.tool_calls) = false) :
    (m.role == Role.assistant && (msgToolList m).any p) = false := by
  cases hr : (m.role == Role.assistant) with
  | false => simp [hr]
  | true =>
    have hf : isFalsyToolCalls m.tool_calls = true := by
      rw [hr] at hs
      simpa using hs
    simp [hr, falsy_any m p hf]

lemma scanTools_spec (t : String) (msgs : List Message) (st : ToolScanState) :
    (scanTools t msgs st).tool_called = (st.tool_called || hasMatchB t msgs) ∧
    (scanTools t msgs st).score = (if hasBadB t msgs then (0.5 : ℚ) else st.score) ∧
    (scanTools t msgs st).valid_args = (st.valid_args && !hasBadB t msgs) := by
  induction msgs generalizing st with
  | nil => simp [scanTools, hasMatchB, hasBadB]
  | cons m rest ih =>
    by_cases hs : (m.role == Role.assistant && !isFalsyToolCalls m.tool_calls) = true
    · have e : scanTools t (m :: rest) st
          = scanTools t rest ((msgToolList m).foldl (processTool t) st) := by
        simp [scanTools, hs]
      have hr : (m.role == Role.assistant) = true := by
        have h2 := hs
        simp only [Bool.and_eq_true] at h2
        exact h2.1
      obtain ⟨i1, i2, i3⟩ := ih ((msgToolList m).foldl (processTool t) st)
      refine ⟨?_, ?_, ?_⟩
      · rw [e, i1, foldl_tool_called]
        simp [hasMatchB, List.any_cons, hr, Bool.or_assoc]
      · rw [e, i2, foldl_score]
        simp only [hasBadB, List.any_cons, hr, Bool.true_and]
        by_cases hb : hasBadB t rest = true
        · simp only [hasBadB] at hb
          simp [hb]
        · simp only [hasBadB] at hb
          simp only [Bool.not_eq_true] at hb
          simp [hb]
      · rw [e, i3, foldl_valid]
        simp [hasBadB, List.any_cons, hr, Bool.and_assoc]
    · have hs0 : (m.role == Role.assistant && !isFalsyToolCalls m.tool_calls) = false := by
        simpa using hs
      have e : scanTools t (m :: rest) st = scanTools t rest st := by
        simp [scanTools, hs0]
      obtain ⟨i1, i2, i3⟩ := ih st
      refine ⟨?_, ?_, ?_⟩
      · rw [e, i1]
        simp [hasMatchB, List.any_cons, head_contrib_false m _ hs0]
      · rw [e, i2]
        simp [hasBadB, List.any_cons, head_contrib_false m _ hs0]
      · rw [e, i3]
        simp [hasBadB, List.any_cons, head_contrib_false m _ hs0]

lemma processTool_skip (t : String) (st : ToolScanState) (tc : ToolCall)
    (h : (tc.name == t) = false) : processTool t st tc = st := by
  have hne : ¬ tc.name = t := by simpa using h
  simp [processTool, hne]

lemma foldl_noMatch (t : String) (l : List ToolCall) (st : ToolScanState)
    (h : l.any (fun tc => tc.name == t) = false) :
    l.foldl (processTool t) st = st := by
  induction l generalizing st with
  | nil => rfl
  | cons tc l ih =>
    simp only [List.any_cons, Bool.or_eq_false_iff] at h
    rw [List.foldl_cons, processTool_skip t st tc h.1, ih st h.2]

lemma scan_noMatch (t : String) (msgs : List Message) (st : ToolScanState)
    (h : hasMatchB t msgs = false) : scanTools t msgs st = st := by
  induction msgs generalizing st with
  | nil => rfl
  | cons m rest ih =>
    simp only [hasMatchB, List.any_cons, Bool.or_eq_false_iff] at h
    have hrest : hasMatchB t rest = false := h.2
    by_cases hs : (m.role == Role.assistant && !isFalsyToolCalls m.tool_calls) = true
    · have hr : (m.role == Role.assistant) = true := by
        have h2 := hs
        simp only [Bool.and_eq_true] at h2
        exact h2.1
      have hany : (msgToolList m).any (fun tc => tc.name == t) = false := by
        have := h.1
        rwa [hr, Bool.true_and] at this
      simp [scanTools, hs, foldl_noMatch t _ st hany, ih st hrest]
    · have hs0 : (m.role == Role.assistant && !isFalsyToolCalls m.tool_calls) = false := by
        simpa using hs
      simp [scanTools, hs0, ih st hrest]

lemma containsSeq_append_right (l1 l2 w : List Char) (h : containsSeq l2 w = true) :
    containsSeq (l1 ++ l2) w = true := by
  induction l1 with
  | nil => simpa using h
  | cons a l ih => simp [containsSeq, ih]

lemma containsSub_append_right (s1 s2 w : String) (h : containsSub s2 w = true) :
    containsSub (s1 ++ s2) w = true := by
  unfold containsSub at h ⊢
  have e : (s1 ++ s2).toList = s1.toList ++ s2.toList := by
    simp [String.toList]
  rw [e]
  exact containsSeq_append_right _ _ _ h

lemma intercalate_singleton (sep s : String) : String.intercalate sep [s] = s := rfl

/-- Claim C4 (amended): once the tool-usage evaluator has detected intent
`t`: with no assistant tool call named `t` anywhere, the score is exactly 0
and the reasoning flags the hallucination (contains `no tool was called`);
with such a call present and some call named `t` either missing a required
argument key or being `flight_search` with a date argument rejected by the
code's date regex (`YYYY-MM-DD`, optionally followed by one trailing
newline, per Python `$` semantics), the score is exactly 0.5 — never lower,
even when both problems occur; otherwise the score is exactly 1. -/
theorem c4_tool_usage_scoring (messages : List Message) (t : String)
    (h : detect_user_intent messages none = Except.ok (some t)) :
    ∃ m, evaluate_tool_usage messages = Except.ok m ∧
      m.evaluator = EvaluatorType.tool_check ∧
      (hasMatchB t messages = false →
        m.score = 0 ∧ containsSub m.reasoning "no tool was called" = true) ∧
      (hasMatchB t messages = true → hasBadB t messages = true → m.score = 0.5) ∧
      (hasMatchB t messages = true → hasBadB t messages = false → m.score = 1) := by
  cases hM : hasMatchB t messages with
  | false =>
    have hscan : scanTools t messages initScan = initScan :=
      scan_noMatch t messages initScan hM
    refine ⟨⟨EvaluatorType.tool_check, 0,
      "User asked for \x27" ++ t ++ "\x27 but no tool was called (Hallucination).",
      [], none⟩, ?_, rfl, ?_, ?_, ?_⟩
    · simp only [evaluate_tool_usage, h]
      rw [hscan]
      simp [initScan, intercalate_singleton]
    · intro _
      refine ⟨rfl, ?_⟩
      exact containsSub_append_right _ "\x27 but no tool was called (Hallucination)." _
        (by decide)
    · intro hM2
      exact Bool.noConfusion hM2
    · intro hM2
      exact Bool.noConfusion hM2
  | true =>
    obtain ⟨s1, s2, s3⟩ := scanTools_spec t messages initScan
    have htc : (scanTools t messages initScan).tool_called = true := by
      rw [s1, hM]
      rfl
    cases hB : hasBadB t messages with
    | true =>
      have hva : (scanTools t messages initScan).valid_args = false := by
        rw [s3, hB]
        rfl
      have hsc : (scanTools t messages initScan).score = 0.5 := by
        rw [s2, hB]
        rfl
      refine ⟨⟨EvaluatorType.tool_check, 0.5,
        String.intercalate "; " (scanTools t messages initScan).reasoning, [], none⟩,
        ?_, rfl, ?_, ?_, ?_⟩
      · simp [evaluate_tool_usage, h, htc, hva, hsc]
      · intro hM2
        exact Bool.noConfusion hM2
      · intro _ _
        rfl
      · intro _ hB2
        exact Bool.noConfusion hB2
    | false =>
      have hva : (scanTools t messages initScan).valid_args = true := by
        rw [s3, hB]
        rfl
      have hsc : (scanTools t messages initScan).score = 1 := by
        rw [s2, hB]
        rfl
      refine ⟨⟨EvaluatorType.tool_check, 1,
        String.intercalate "; " ((scanTools t messages initScan).reasoning
          ++ ["Tool \x27" ++ t ++ "\x27 called correctly."]), [], none⟩,
        ?_, rfl, ?_, ?_, ?_⟩
      · simp [evaluate_tool_usage, h, htc, hva, hsc]
      · intro hM2
        exact Bool.noConfusion hM2
      · intro _ hB2
        exact Bool.noConfusion hB2
      · intro _ _
        rfl

/-- Claim C4 counterexample: the assistant answers the flight intent with a
`flight_search` call whose date argument `2024-05-01\n` is *not* of the
literal shape `YYYY-MM-DD` (it carries a trailing newline), yet the code
scores 1.0, not 0.5: Python's `re.match(r"^\d{4}-\d{2}-\d{2}$", ...)`
accepts a single trailing newline before `$`. -/
theorem c4_counterexample :
    detect_user_intent exC4 none = Except.ok (some "flight_search") ∧
    hasMatchB "flight_search" exC4 = true ∧
    dateCore ("2024-05-01\n".toList) = false ∧
    evaluate_tool_usage exC4
      = Except.ok ⟨EvaluatorType.tool_check, 1,
          "Tool \x27flight_search\x27 called correctly.", [], none⟩ :=
  ⟨rfl, rfl, rfl, rfl⟩

/-- Witness for `c4_tool_usage_scoring` at a concrete conversation with a
correct `get_weather` call. -/
theorem c4_tool_usage_scoring_witness :
    detect_user_intent exC4w none = Except.ok (some "get_weather") ∧
    (∃ m, evaluate_tool_usage exC4w = Except.ok m ∧ m.score = 1) := by
  refine ⟨rfl, ?_⟩
  obtain ⟨m, hm, -, -, -, h1⟩ := c4_tool_usage_scoring exC4w "get_weather" rfl
  exact ⟨m, hm, h1 rfl rfl⟩

/-! ## Claims C10 and C1 -/

lemma tool_usage_ok (messages : List Message)
    (h2 : ∀ m ∈ messages, m.role = Role.user → m.content ≠ none) :
    ∃ m, evaluate_tool_usage messages = Except.ok m
      ∧ m.evaluator = EvaluatorType.tool_check := by
  have hd := detect_eq messages none h2
  cases hL : lastIntent messages with
  | none =>
    rw [hL] at hd
    have hd2 : detect_user_intent messages none = Except.ok none := hd
    cases he : evaluate_tool_usage messages with
    | error e =>
      simp only [evaluate_tool_usage, hd2] at he
      exact Except.noConfusion he
    | ok m =>
      refine ⟨m, rfl, ?_⟩
      simp only [evaluate_tool_usage, hd2, Except.ok.injEq] at he
      subst he
      rfl
  | some t =>
    rw [hL] at hd
    have hd2 : detect_user_intent messages none = Except.ok (some t) := hd
    cases he : evaluate_tool_usage messages with
    | error e =>
      simp only [evaluate_tool_usage, hd2] at he
      exact Except.noConfusion he
    | ok m =>
      refine ⟨m, rfl, ?_⟩
      simp only [evaluate_tool_usage, hd2, Except.ok.injEq] at he
      subst he
      rfl

lemma coherence_ok (messages : List Message) (h1 : messages ≠ []) :
    ∃ m, evaluate_coherence messages = Except.ok m
      ∧ m.evaluator = EvaluatorType.coherence := by
  cases hg : messages.getLast? with
  | none =>
    rw [List.getLast?_eq_none_iff] at hg
    exact absurd hg h1
  | some last =>
    cases he : evaluate_coherence messages with
    | error e =>
      simp only [evaluate_coherence, hg] at he
      exact Except.noConfusion he
    | ok m =>
      refine ⟨m, rfl, ?_⟩
      simp only [evaluate_coherence, hg, Except.ok.injEq] at he
      subst he
      rfl

/-- Claim C10: on every conversation satisfying the data-model invariants
(non-empty message list, textual user content) the controller returns
exactly three metrics in the fixed order heuristics, tool-usage, coherence;
the heuristic evaluator's metric is tagged `COHERENCE` (evaluators.py:52),
so the result carries two `coherence` tags, one `tool_check` tag, and no
distinct heuristics/latency tag. -/
theorem c10_controller_tags (messages : List Message) (h1 : messages ≠ [])
    (h2 : ∀ m ∈ messages, m.role = Role.user → m.content ≠ none) :
    ∃ l, run_all_evaluators messages = Except.ok l ∧
      l.map EvaluationMetric.evaluator
        = [EvaluatorType.coherence, EvaluatorType.tool_check, EvaluatorType.coherence] := by
  obtain ⟨m2, e2, t2⟩ := tool_usage_ok messages h2
  obtain ⟨m3, e3, t3⟩ := coherence_ok messages h1
  refine ⟨[check_heuristics messages, m2, m3], ?_, ?_⟩
  · simp only [run_all_evaluators, e2, e3]
  · simp [check_heuristics, t2, t3]

/-- Witness for `c10_controller_tags` at a concrete two-message
conversation. -/
theorem c10_controller_tags_witness :
    ∃ l, run_all_evaluators exC10w = Except.ok l ∧
      l.map EvaluationMetric.evaluator
        = [EvaluatorType.coherence, EvaluatorType.tool_check, EvaluatorType.coherence] :=
  c10_controller_tags exC10w (by decide) (by decide)

/-- Claim C1: the `EvaluationResult(...)` construction at main.py:38-44
never passes `routing`, a required field of the pydantic model
(models.py:60), so for every conversation that reaches the aggregation step
the pipeline raises a ValidationError instead of returning a result — no
result with a routing decision is ever produced. -/
theorem c1_routing_never_assigned (conv : ConversationInput)
    (h1 : conv.messages ≠ [])
    (h2 : ∀ m ∈ conv.messages, m.role = Role.user → m.content ≠ none) :
    run_pipeline conv = Except.error "ValidationError: routing field required" := by
  obtain ⟨m2, e2, t2⟩ := tool_usage_ok conv.messages h2
  obtain ⟨m3, e3, t3⟩ := coherence_ok conv.messages h1
  simp only [run_pipeline, run_all_evaluators, e2, e3, EvaluationResult.construct]

/-- Witness for `c1_routing_never_assigned` at a concrete one-message
conversation. -/
theorem c1_routing_never_assigned_witness :
    run_pipeline ⟨"c1", [⟨Role.user, some "hello", none, 0⟩]⟩
      = Except.error "ValidationError: routing field required" :=
  c1_routing_never_assigned ⟨"c1", [⟨Role.user, some "hello", none, 0⟩]⟩
    (by decide) (by decide)

/-! ## Claim C9 -/

lemma filter_filter_not {α : Type} (p : α → Bool) (l : List α) :
    (l.filter (fun a => !p a)).filter p = [] := by
  induction l with
  | nil => rfl
  | cons a l ih =>
    by_cases h : p a = true
    · simp [List.filter_cons, h, ih]
    · have h0 : p a = false := by simpa using h
      simp [List.filter_cons, h0, ih]

/-- Claim C9 (amended): after two feedback submissions keyed by the same
(conversation_id, annotator_id) pair the store holds exactly one row for
that pair, carrying the second submission's score — but the row's labels
column is always the literal `[]` and its confidence is always 1.0, because
`submit_feedback` (main.py:71) passes neither the submitted labels nor the
submitted confidence to `save_annotation`. -/
theorem c9_upsert_replaces (db : List AnnotRow) (a1 a2 : HumanAnnot)
    (hc : a1.conversation_id = a2.conversation_id)
    (ha : a1.annotator_id = a2.annotator_id) :
    (submit_feedback (submit_feedback db a1) a2).filter
        (fun r => r.conversation_id == a2.conversation_id
          && r.annotator_id == a2.annotator_id)
      = [{ conversation_id := a2.conversation_id, annotator_id := a2.annotator_id
           score := a2.score, labels := "[]", confidence := 1 }] := by
  unfold submit_feedback saveAnnot
  rw [hc, ha]
  simp [List.filter_append, filter_filter_not]
  norm_num

/-- Witness for `c9_upsert_replaces` at two concrete submissions. -/
theorem c9_upsert_replaces_witness :
    (submit_feedback (submit_feedback [] exB1) exB2).filter
        (fun r => r.conversation_id == exB2.conversation_id
          && r.annotator_id == exB2.annotator_id)
      = [{ conversation_id := exB2.conversation_id, annotator_id := exB2.annotator_id
           score := exB2.score, labels := "[]", confidence := 1 }] :=
  c9_upsert_replaces [] exB1 exB2 rfl rfl

/-- Claim C9 counterexample: resubmitting with labels `["bad"]` and
confidence 0.5 leaves one row whose labels column is `[]` and whose
confidence is 1.0 — the stored row does not reflect the second submission's
labels or confidence values. -/
theorem c9_counterexample :
    submit_feedback (submit_feedback [] exB1) exB2
      = [{ conversation_id := "c9", annotator_id := "ax", score := 3/4
           labels := "[]", confidence := 1 }]
    ∧ exB2.labels = ["bad"] ∧ exB2.confidence = 1/2
    ∧ ((1 : ℚ) = 1/2 → False) := by
  refine ⟨?_, rfl, rfl, ?_⟩
  · norm_num +decide [submit_feedback, saveAnnot, exB1, exB2]
  · intro h
    norm_num at h

/-! ## Claim C7 -/

lemma pyRound2R_one : pyRound2R 1 = 1 := by
  unfold pyRound2R roundHalfEvenR
  norm_num

/-- Claim C7 (amended): the agreement query returns the sentinel
(0.0, `Insufficient Data`) exactly when fewer than 2 total annotations are
stored.  With 2 or more annotations: if no conversation has 2 or more
annotators, every per-group standard deviation is NaN in pandas, their mean
is NaN, and the code returns 1.0 under the computed-index label
`Variance-Based Agreement Index` — not the sentinel; otherwise it returns
1/(1+d) rounded to 2 decimals, where d is the mean of the per-conversation
sample standard deviations over the conversations with 2 or more
annotators. -/
theorem c7_agreement_formula (db : List AnnotRow) :
    (get_agreement_score db = (0, "Insufficient Data") ↔ db.length < 2) ∧
    (2 ≤ db.length → stdList (dbRows db) = [] →
      get_agreement_score db = (1, "Variance-Based Agreement Index")) ∧
    (2 ≤ db.length → stdList (dbRows db) ≠ [] →
      get_agreement_score db
        = (pyRound2R (1 / (1 + (stdList (dbRows db)).sum / (stdList (dbRows db)).length)),
           "Variance-Based Agreement Index")) := by
  have hlenrows : (dbRows db).length = db.length := by simp [dbRows]
  refine ⟨⟨?_, ?_⟩, ?_, ?_⟩
  · intro h
    by_contra hlen
    push_neg at hlen
    have hcond : ¬ ((dbRows db).length < 2) := by
      rw [hlenrows]
      omega
    simp only [get_agreement_score, hcond, if_false] at h
    by_cases hs : (stdList (dbRows db)).isEmpty
    · rw [if_pos hs] at h
      have h2 : ("Variance-Based Agreement Index" : String) = "Insufficient Data" :=
        congrArg Prod.snd h
      exact absurd h2 (by decide)
    · rw [if_neg hs] at h
      have h2 : ("Variance-Based Agreement Index" : String) = "Insufficient Data" :=
        congrArg Prod.snd h
      exact absurd h2 (by decide)
  · intro h
    have hcond : (dbRows db).length < 2 := by rw [hlenrows]; exact h
    simp only [get_agreement_score, hcond, if_true]
    norm_num
  · intro hlen hstd
    have hcond : ¬ ((dbRows db).length < 2) := by rw [hlenrows]; omega
    have hs : (stdList (dbRows db)).isEmpty = true := by simp [hstd]
    simp only [get_agreement_score, hcond, if_false, hs, if_true]
    rw [show (1.0 : ℝ) = 1 by norm_num, pyRound2R_one]
  · intro hlen hstd
    have hcond : ¬ ((dbRows db).length < 2) := by rw [hlenrows]; omega
    have hs : (stdList (dbRows db)).isEmpty = false := by
      simp [List.isEmpty_iff, hstd]
    simp only [get_agreement_score, hcond, if_false, hs, Bool.false_eq_true]
    norm_num

/-- Claim C7 counterexample: two annotations on two different conversations
— at least 2 total annotations, but no conversation has 2 or more
annotators.  The claim demands the sentinel (0.0, insufficient data), but
the code returns (1.0, `Variance-Based Agreement Index`): pandas gives NaN
standard deviations for singleton groups, their mean is NaN, and the
`pd.notna` guard falls back to agreement 1.0. -/
theorem c7_counterexample :
    2 ≤ dbC7.length ∧
    (∀ cid ∈ convIds (dbRows dbC7), (scoresFor (dbRows dbC7) cid).length < 2) ∧
    get_agreement_score dbC7 = (1, "Variance-Based Agreement Index") := by
  refine ⟨by norm_num [dbC7], by decide, ?_⟩
  have hstd : stdList (dbRows dbC7) = [] := by
    simp +decide [stdList, convIds, scoresFor, dbRows, dbC7]
  have hcond : ¬ ((dbRows dbC7).length < 2) := by norm_num [dbRows, dbC7]
  have hs : (stdList (dbRows dbC7)).isEmpty = true := by simp [hstd]
  simp only [get_agreement_score, hcond, if_false, hs, if_true]
  rw [show (1.0 : ℝ) = 1 by norm_num, pyRound2R_one]

/-- Witness for `c7_agreement_formula` at two concrete annotations on one
conversation with equal scores: zero disagreement, agreement index 1.0. -/
theorem c7_agreement_formula_witness :
    get_agreement_score dbC7w = (1, "Variance-Based Agreement Index") := by
  have hstds : stdList (dbRows dbC7w) = [sampleStd [4/5, 4/5]] := by
    simp +decide [stdList, convIds, scoresFor, dbRows, dbC7w]
  have hzero : sampleStd [4/5, 4/5] = 0 := by
    norm_num [sampleStd, Real.sqrt_zero]
  have h := (c7_agreement_formula dbC7w).2.2 (by norm_num [dbC7w])
    (by rw [hstds]; simp)
  rw [hstds, hzero] at h
  norm_num [pyRound2R_one] at h
  exact h
